import Mathlib

/-!
Verification of the VN-Bot presence tracker, nickname pool store and
identity generator against its natural-language specification.

The embedding mirrors the Python sources:
* `config.py`   — `BOT_CONFIG`, `NICKNAME_FORMATS`
* `models.py`   — `Guild`, `Nickname`, `add_nickname`, `remove_nickname`,
                  `get_random_nickname` (randomness made explicit as an index)
* `bot_working.py` / `bot.py` — the two voice handlers, `generate_nickname`
                  and the `/restore` command, with the Discord connector
                  (`member.edit`) modelled as an explicit success flag and a
                  log of issued requests.
-/

namespace VNBot

/-! ### Python `dict[int, str]` as an insertion-ordered association list -/

/-- `d[k]` lookup: first binding of `k`, if any. -/
def dget : List (Nat × String) → Nat → Option String
  | [], _ => none
  | (a, b) :: rest, k => if a == k then some b else dget rest k

/-- `k in d` membership test. -/
def dmem (d : List (Nat × String)) (k : Nat) : Bool :=
  (dget d k).isSome

/-- `d[k] = v` assignment: replace the binding in place, else append. -/
def dset : List (Nat × String) → Nat → String → List (Nat × String)
  | [], k, v => [(k, v)]
  | (a, b) :: rest, k, v =>
      if a == k then (k, v) :: rest else (a, b) :: dset rest k v

/-- `del d[k]`: drop the binding of `k`. -/
def ddel : List (Nat × String) → Nat → List (Nat × String)
  | [], _ => []
  | (a, b) :: rest, k =>
      if a == k then rest else (a, b) :: ddel rest k

theorem dget_dset_self (d : List (Nat × String)) (k : Nat) (v : String) :
    dget (dset d k v) k = some v := by
  induction d with
  | nil => simp [dget, dset]
  | cons p rest ih =>
    obtain ⟨a, b⟩ := p
    by_cases h : a = k
    · simp [dget, dset, h]
    · simpa [dget, dset, h] using ih

theorem mem_keys_dset (d : List (Nat × String)) (k : Nat) (v : String) (x : Nat)
    (hx : x ∈ (dset d k v).map Prod.fst) : x ∈ d.map Prod.fst ∨ x = k := by
  induction d with
  | nil => right; simpa [dset] using hx
  | cons p rest ih =>
    obtain ⟨a, b⟩ := p
    by_cases h : a = k
    · subst h
      simp only [dset, beq_self_eq_true, if_true, List.map_cons, List.mem_cons] at hx
      rcases hx with rfl | hx
      · right; rfl
      · left; simp [hx]
    · simp only [dset, beq_iff_eq, h, if_false, List.map_cons, List.mem_cons] at hx
      rcases hx with rfl | hx
      · left; simp
      · rcases ih hx with hx2 | hx2
        · left; simp [hx2]
        · right; exact hx2

theorem nodup_keys_dset (d : List (Nat × String)) (k : Nat) (v : String)
    (hd : (d.map Prod.fst).Nodup) : ((dset d k v).map Prod.fst).Nodup := by
  induction d with
  | nil => simp [dset]
  | cons p rest ih =>
    obtain ⟨a, b⟩ := p
    rw [List.map_cons, List.nodup_cons] at hd
    by_cases h : a = k
    · subst h
      simpa [dset] using hd
    · simp only [dset, beq_iff_eq, h, if_false, List.map_cons, List.nodup_cons]
      refine ⟨fun hmem => ?_, ih hd.2⟩
      rcases mem_keys_dset rest k v a hmem with h2 | h2
      · exact hd.1 h2
      · exact h h2

theorem dget_eq_none_of_not_mem_keys (d : List (Nat × String)) (k : Nat)
    (h : k ∉ d.map Prod.fst) : dget d k = none := by
  induction d with
  | nil => simp [dget]
  | cons p rest ih =>
    obtain ⟨a, b⟩ := p
    rw [List.map_cons, List.mem_cons] at h
    push_neg at h
    have hak : a ≠ k := fun he => h.1 he.symm
    simp only [dget, beq_iff_eq, hak, if_false]
    exact ih h.2

theorem dget_ddel_self (d : List (Nat × String)) (k : Nat)
    (hd : (d.map Prod.fst).Nodup) : dget (ddel d k) k = none := by
  induction d with
  | nil => simp [dget, ddel]
  | cons p rest ih =>
    obtain ⟨a, b⟩ := p
    rw [List.map_cons, List.nodup_cons] at hd
    by_cases h : a = k
    · subst h
      simp only [ddel, beq_self_eq_true, if_true]
      exact dget_eq_none_of_not_mem_keys rest a hd.1
    · simp only [ddel, beq_iff_eq, h, if_false, dget]
      exact ih hd.2

theorem ddel_of_dmem_false (d : List (Nat × String)) (k : Nat)
    (h : dmem d k = false) : ddel d k = d := by
  induction d with
  | nil => simp [ddel]
  | cons p rest ih =>
    obtain ⟨a, b⟩ := p
    by_cases hak : a = k
    · exfalso
      subst hak
      simp [dmem, dget] at h
    · have hrest : dmem rest k = false := by
        simpa [dmem, dget, hak] using h
      simp [ddel, hak, ih hrest]

/-! ### `config.py` -/

/-- A Python config value: the `BOT_CONFIG` dict is heterogeneous. -/
inductive ConfigVal where
  | str : String → ConfigVal
  | strList : List String → ConfigVal
deriving DecidableEq

/-- `BOT_CONFIG` from `config.py`: it holds only `command_prefix` and
`description` — there is no `nickname_formats` key. -/
def BOT_CONFIG : List (String × ConfigVal) :=
  [("command_prefix", ConfigVal.str "!"),
   ("description", ConfigVal.str "🎭 Transform your voice channels with automatic identity magic! Assigns mysterious nicknames when users join voice channels and perfectly restores them when they leave.")]

/-- `NICKNAME_FORMATS` from `config.py`: the module-level static list the
fallback comment refers to, separate from `BOT_CONFIG`. -/
def NICKNAME_FORMATS : List String :=
  ["Subject 032", "Operator-91", "Naib-\x7bcounter:03d\x7d"]

/-- Python dict subscript on the config dict; a missing key is a `KeyError`. -/
def dictGet (d : List (String × ConfigVal)) (k : String) : Option ConfigVal :=
  (d.find? (fun p => p.1 == k)).map (fun p => p.2)

/-! ### `bot_working.py` — `generate_nickname` -/

/-- Outcome of the `self.db.get_random_nickname(guild_id)` call inside the
`try` block: a returned optional string, or a raised store exception. -/
inductive StoreResult where
  | ok : Option String → StoreResult
  | unreachable : StoreResult
deriving DecidableEq

/-- Python `f"\x7bcounter:03d\x7d"` for `counter ≤ 999`. -/
def pad3 (n : Nat) : String :=
  if n < 10 then "00" ++ toString n
  else if n < 100 then "0" ++ toString n
  else toString n

/-- `generate_nickname` from `bot_working.py` (also verbatim in `bot.py` and
`bot_final.py`). `db = none` models `self.db is None`; `choiceIdx` and
`counter` stand for `random.choice` / `random.randint(1, 999)`. The fallback
path reads `BOT_CONFIG['nickname_formats']`; the error value records a raised
`KeyError`. -/
def generate_nickname (db : Option StoreResult) (choiceIdx : Nat) (counter : Nat) :
    Except String String :=
  let fb : Except String String :=
    match dictGet BOT_CONFIG "nickname_formats" with
    | none => Except.error "KeyError: nickname_formats"
    | some (ConfigVal.strList fmts) =>
        Except.ok ((fmts.getD (choiceIdx % fmts.length) "") ++ " " ++ pad3 counter)
    | some (ConfigVal.str _) => Except.error "TypeError: random.choice on a str"
  match db with
  | some (StoreResult.ok (some nickname)) =>
      if nickname = "" then fb else Except.ok nickname
  | some (StoreResult.ok none) => fb
  | some StoreResult.unreachable => fb
  | none => fb

/-- Does a string have the shape `"<template> <NNN>"` with a non-empty
template and a zero-padded 3-digit counter in 001–999? -/
def matchesCounterFormat (s : String) : Bool :=
  match s.data.reverse with
  | d0 :: d1 :: d2 :: sp :: _ :: _ =>
      d0.isDigit && d1.isDigit && d2.isDigit && sp == Char.ofNat 32
        && !(d0 == Char.ofNat 48 && d1 == Char.ofNat 48 && d2 == Char.ofNat 48)
  | _ => false

/-! ### `models.py` — store embedding -/

/-- A row of the `guilds` table. -/
structure DGuild where
  id : Nat
  name : String
  owner_id : Nat
deriving DecidableEq

/-- A row of the `nicknames` table. -/
structure DNickname where
  id : Nat
  guild_id : Nat
  nickname : String
  is_active : Bool
  created_by : Nat
deriving DecidableEq

/-- The database: both tables in insertion order plus the autoincrement
counter for `nicknames.id`. -/
structure Store where
  guilds : List DGuild
  nicknames : List DNickname
  nextId : Nat
deriving DecidableEq

/-- ASCII lowering, as used by SQL `ILIKE` and Python `.lower()`. -/
def lowerStr (s : String) : String :=
  String.mk (s.data.map Char.toLower)

/-- Python `str.strip()`: drop whitespace from both ends. -/
def pyStrip (s : String) : String :=
  String.mk
    (((s.data.dropWhile Char.isWhitespace).reverse.dropWhile Char.isWhitespace).reverse)

/-- Case-insensitive equality of strings — what the spec means by
"matches the trimmed text case-insensitively". -/
def ciEq (a b : String) : Bool :=
  lowerStr a == lowerStr b

/-- SQL `LIKE` pattern matching: `%` matches any sequence, `_` any single
character, other characters literally. First argument is the pattern; the
`%` case tries every suffix of the remaining text. -/
def likeMatch : List Char → List Char → Bool
  | [], s => s.isEmpty
  | '%' :: p, s => s.tails.any (fun t => likeMatch p t)
  | '_' :: p, s =>
      match s with
      | [] => false
      | _ :: sr => likeMatch p sr
  | a :: p, s =>
      match s with
      | [] => false
      | c :: sr => a == c && likeMatch p sr

/-- `column.ilike(pattern)`: case-insensitive `LIKE`, the stored text
matched against the user-supplied text *as a pattern*. -/
def ilike (stored pattern : String) : Bool :=
  likeMatch (lowerStr pattern).data (lowerStr stored).data

/-- The SQLAlchemy filter used by both `add_nickname` and `remove_nickname`:
`guild_id == g`, `nickname.ilike(cleaned)`, `is_active == True`. -/
def nickFilter (g : Nat) (cleaned : String) (n : DNickname) : Bool :=
  n.guild_id == g && ilike n.nickname cleaned && n.is_active

/-- `DatabaseManager.add_nickname` from `models.py`, returning the result
together with the updated store. -/
def add_nickname (s : Store) (guild_id : Nat) (nickname : String) (created_by : Nat) :
    Option DNickname × Store :=
  let cleaned := pyStrip nickname
  if cleaned = "" then (none, s)
  else
    match s.nicknames.find? (nickFilter guild_id cleaned) with
    | some _ => (none, s)
    | none =>
        let newN : DNickname :=
          { id := s.nextId, guild_id := guild_id, nickname := cleaned,
            is_active := true, created_by := created_by }
        (some newN,
         { s with nicknames := s.nicknames ++ [newN], nextId := s.nextId + 1 })

/-- The branch taken by `remove_nickname`; the payload mirrors the message
f-strings of `models.py`. -/
inductive RemoveMsg where
  | guildNotFound
  | notOwner
  | notFound (cleaned : String)
  | removed (cleaned : String)
deriving DecidableEq

/-- Flip `is_active` to `False` on the row with the given primary key. -/
def deactivateId (l : List DNickname) (i : Nat) : List DNickname :=
  l.map (fun n => if n.id == i then { n with is_active := false } else n)

/-- `DatabaseManager.remove_nickname` from `models.py`. -/
def remove_nickname (s : Store) (guild_id : Nat) (nickname : String) (requester_id : Nat) :
    (Bool × RemoveMsg) × Store :=
  let cleaned := pyStrip nickname
  match s.guilds.find? (fun gd => gd.id == guild_id) with
  | none => ((false, RemoveMsg.guildNotFound), s)
  | some guild =>
      if guild.owner_id != requester_id then ((false, RemoveMsg.notOwner), s)
      else
        match s.nicknames.find? (nickFilter guild_id cleaned) with
        | none => ((false, RemoveMsg.notFound cleaned), s)
        | some nobj =>
            ((true, RemoveMsg.removed cleaned),
             { s with nicknames := deactivateId s.nicknames nobj.id })

/-- `DatabaseManager.get_random_nickname`: uniform choice over the active
rows of the guild, the randomness exposed as an index. -/
def get_random_nickname (s : Store) (guild_id : Nat) (idx : Nat) : Option String :=
  let actives := s.nicknames.filter (fun n => n.guild_id == guild_id && n.is_active)
  (actives.get? (idx % actives.length)).map DNickname.nickname

/-- Concrete store: guild 1 owned by user 10, one active template `Subject`. -/
def S0 : Store :=
  { guilds := [{ id := 1, name := "G", owner_id := 10 }],
    nicknames := [{ id := 1, guild_id := 1, nickname := "Subject",
                    is_active := true, created_by := 10 }],
    nextId := 2 }

/-! ### Discord member and the voice handlers -/

/-- A guild member as the handlers see it: `member.name` is the
platform-assigned account username, `member.nick` the server nickname
override (`none` = no override). -/
structure Member where
  id : Nat
  username : String
  nick : Option String
deriving DecidableEq

/-- `member.display_name`: the nickname override when set, else the
account username. -/
def Member.display_name (m : Member) : String :=
  m.nick.getD m.username

/-- Result of running a voice handler: the updated in-memory ledger
`original_nicknames`, the member as the connector now shows them, the
`member.edit(nick=...)` requests issued (in order, refused ones included)
and how many times `generate_nickname` was consulted. -/
structure HandlerOutcome where
  ledger : List (Nat × String)
  member : Member
  calls : List (Option String)
  genCalls : Nat
deriving DecidableEq

namespace BotWorking

/-- `VoiceNicknameBot.handle_voice_join` from `bot_working.py` (lines 92-109).
`gen` is the outcome of the `generate_nickname` call; `editOk` tells whether
the connector accepts the `member.edit` request (a refusal raises
`discord.Forbidden`, caught by the handler after the ledger write). -/
def handle_voice_join (ledger : List (Nat × String)) (m : Member)
    (gen : Except String String) (editOk : Bool) : HandlerOutcome :=
  let original_nick := m.display_name
  let ledger1 := dset ledger m.id original_nick
  match gen with
  | Except.error _ => { ledger := ledger1, member := m, calls := [], genCalls := 1 }
  | Except.ok nn =>
      if nn = "" then { ledger := ledger1, member := m, calls := [], genCalls := 1 }
      else if editOk then
        { ledger := ledger1, member := { m with nick := some nn },
          calls := [some nn], genCalls := 1 }
      else
        { ledger := ledger1, member := m, calls := [some nn], genCalls := 1 }

/-- `VoiceNicknameBot.handle_voice_leave` from `bot_working.py` (lines
111-131). Note the source deletes the ledger entry only *after* the
`member.edit` call, so a refused restore leaves the record in place. -/
def handle_voice_leave (ledger : List (Nat × String)) (m : Member)
    (editOk : Bool) : HandlerOutcome :=
  if dmem ledger m.id then
    let original_nick := (dget ledger m.id).getD ""
    let req : Option String :=
      if original_nick ≠ m.username then some original_nick else none
    if editOk then
      { ledger := ddel ledger m.id, member := { m with nick := req },
        calls := [req], genCalls := 0 }
    else
      { ledger := ledger, member := m, calls := [req], genCalls := 0 }
  else
    { ledger := ledger, member := m, calls := [], genCalls := 0 }

/-- The branch taken by the `/restore` slash command. -/
inductive RestoreResponse where
  | ownerOnly
  | restored (orig : String)
  | notTracked
  | noPermission
deriving DecidableEq

/-- `restore_command` from `bot_working.py` (lines 212-260), with the target
member already resolved. Returns the response branch, the updated ledger and
the connector requests issued. -/
def restore_command (ledger : List (Nat × String)) (requester_id owner_id : Nat)
    (target : Member) (editOk : Bool) :
    RestoreResponse × List (Nat × String) × List (Option String) :=
  if requester_id ≠ owner_id then (RestoreResponse.ownerOnly, ledger, [])
  else if dmem ledger target.id then
    let original_nick := (dget ledger target.id).getD ""
    let req : Option String :=
      if original_nick ≠ target.username then some original_nick else none
    if editOk then
      (RestoreResponse.restored original_nick, ddel ledger target.id, [req])
    else
      (RestoreResponse.noPermission, ledger, [req])
  else (RestoreResponse.notTracked, ledger, [])

end BotWorking

namespace BotPy

/-- `VoiceNicknameBot.handle_voice_join` from `bot.py` (lines 153-181): it
returns immediately when the user is already tracked, before any capture,
generator call or edit. -/
def handle_voice_join (ledger : List (Nat × String)) (m : Member)
    (gen : Except String String) (editOk : Bool) : HandlerOutcome :=
  if dmem ledger m.id then
    { ledger := ledger, member := m, calls := [], genCalls := 0 }
  else
    let ledger1 := dset ledger m.id m.display_name
    match gen with
    | Except.error _ => { ledger := ledger1, member := m, calls := [], genCalls := 1 }
    | Except.ok nn =>
        if nn = "" then { ledger := ledger1, member := m, calls := [], genCalls := 1 }
        else if editOk then
          { ledger := ledger1, member := { m with nick := some nn },
            calls := [some nn], genCalls := 1 }
        else
          { ledger := ledger1, member := m, calls := [some nn], genCalls := 1 }

/-- `VoiceNicknameBot.handle_voice_leave` from `bot.py` (lines 183-205): the
record is popped *before* the `member.edit` attempt, so the ledger mutation
completes whatever the connector answers. -/
def handle_voice_leave (ledger : List (Nat × String)) (m : Member)
    (editOk : Bool) : HandlerOutcome :=
  if dmem ledger m.id then
    let original_nick := (dget ledger m.id).getD ""
    let ledger1 := ddel ledger m.id
    let req : Option String :=
      if original_nick ≠ m.username then some original_nick else none
    if editOk then
      { ledger := ledger1, member := { m with nick := req },
        calls := [req], genCalls := 0 }
    else
      { ledger := ledger1, member := m, calls := [req], genCalls := 0 }
  else
    { ledger := ledger, member := m, calls := [], genCalls := 0 }

end BotPy

/-! ### Handler facts shared by several claims -/

theorem botWorking_join_ledger (ledger : List (Nat × String)) (m : Member)
    (gen : Except String String) (editOk : Bool) :
    (BotWorking.handle_voice_join ledger m gen editOk).ledger
      = dset ledger m.id m.display_name := by
  cases gen with
  | error e => rfl
  | ok nn =>
    by_cases h : nn = "" <;> cases editOk <;>
      simp [BotWorking.handle_voice_join, h]

theorem botWorking_join_member_id (ledger : List (Nat × String)) (m : Member)
    (gen : Except String String) (editOk : Bool) :
    (BotWorking.handle_voice_join ledger m gen editOk).member.id = m.id := by
  cases gen with
  | error e => rfl
  | ok nn =>
    by_cases h : nn = "" <;> cases editOk <;>
      simp [BotWorking.handle_voice_join, h]

theorem botWorking_join_member_username (ledger : List (Nat × String)) (m : Member)
    (gen : Except String String) (editOk : Bool) :
    (BotWorking.handle_voice_join ledger m gen editOk).member.username = m.username := by
  cases gen with
  | error e => rfl
  | ok nn =>
    by_cases h : nn = "" <;> cases editOk <;>
      simp [BotWorking.handle_voice_join, h]

theorem botPy_leave_ledger (ledger : List (Nat × String)) (m : Member)
    (editOk : Bool) :
    (BotPy.handle_voice_leave ledger m editOk).ledger = ddel ledger m.id := by
  by_cases h : dmem ledger m.id = true
  · cases editOk <;> simp [BotPy.handle_voice_leave, h]
  · have hf : dmem ledger m.id = false := by
      simpa using h
    cases editOk <;>
      simp [BotPy.handle_voice_leave, hf, ddel_of_dmem_false ledger m.id hf]

theorem botWorking_leave_ledger_ok (ledger : List (Nat × String)) (m : Member) :
    (BotWorking.handle_voice_leave ledger m true).ledger = ddel ledger m.id := by
  by_cases h : dmem ledger m.id = true
  · simp [BotWorking.handle_voice_leave, h]
  · have hf : dmem ledger m.id = false := by simpa using h
    simp [BotWorking.handle_voice_leave, hf, ddel_of_dmem_false ledger m.id hf]

theorem botWorking_leave_ledger_refused (ledger : List (Nat × String)) (m : Member) :
    (BotWorking.handle_voice_leave ledger m false).ledger = ledger := by
  by_cases h : dmem ledger m.id = true
  · simp [BotWorking.handle_voice_leave, h]
  · have hf : dmem ledger m.id = false := by simpa using h
    simp [BotWorking.handle_voice_leave, hf]

/-! ### Store facts shared by several claims -/

theorem nickFilter_eq_true_iff (g : Nat) (cl : String) (n : DNickname) :
    nickFilter g cl n = true
      ↔ (n.guild_id = g ∧ n.is_active = true ∧ ilike n.nickname cl = true) := by
  constructor
  · intro h
    simp only [nickFilter, Bool.and_eq_true, beq_iff_eq] at h
    exact ⟨h.1.1, h.2, h.1.2⟩
  · rintro ⟨h1, h2, h3⟩
    simp [nickFilter, h1, h2, h3]

theorem ilike_congr_pattern (x p q : String) (h : lowerStr p = lowerStr q) :
    ilike x p = ilike x q := by
  simp [ilike, h]

theorem add_nickname_invalid (s : Store) (g : Nat) (t : String) (c : Nat)
    (h : pyStrip t = "") : add_nickname s g t c = (none, s) := by
  simp [add_nickname, h]

theorem add_nickname_duplicate (s : Store) (g : Nat) (t : String) (c : Nat)
    (h : ∃ n ∈ s.nicknames, nickFilter g (pyStrip t) n = true) :
    add_nickname s g t c = (none, s) := by
  have hs : (s.nicknames.find? (nickFilter g (pyStrip t))).isSome :=
    List.find?_isSome.mpr h
  obtain ⟨x, hx⟩ := Option.isSome_iff_exists.mp hs
  by_cases he : pyStrip t = ""
  · simp [add_nickname, he]
  · simp [add_nickname, he, hx]

theorem add_nickname_inserts (s : Store) (g : Nat) (t : String) (c : Nat)
    (h1 : pyStrip t ≠ "")
    (h2 : s.nicknames.find? (nickFilter g (pyStrip t)) = none) :
    add_nickname s g t c =
      (some ⟨s.nextId, g, pyStrip t, true, c⟩,
       ⟨s.guilds, s.nicknames ++ [⟨s.nextId, g, pyStrip t, true, c⟩], s.nextId + 1⟩) := by
  simp [add_nickname, h1, h2]

theorem remove_nickname_not_owner (s : Store) (g : Nat) (t : String) (r : Nat)
    (guild : DGuild) (hG : s.guilds.find? (fun gd => gd.id == g) = some guild)
    (h : guild.owner_id ≠ r) :
    remove_nickname s g t r = ((false, RemoveMsg.notOwner), s) := by
  simp [remove_nickname, hG, h]

theorem remove_nickname_not_found (s : Store) (g : Nat) (t : String) (r : Nat)
    (guild : DGuild) (hG : s.guilds.find? (fun gd => gd.id == g) = some guild)
    (ho : guild.owner_id = r)
    (h : s.nicknames.find? (nickFilter g (pyStrip t)) = none) :
    remove_nickname s g t r = ((false, RemoveMsg.notFound (pyStrip t)), s) := by
  simp [remove_nickname, hG, ho, h]

theorem remove_nickname_flips (s : Store) (g : Nat) (t : String) (r : Nat)
    (guild : DGuild) (nobj : DNickname)
    (hG : s.guilds.find? (fun gd => gd.id == g) = some guild)
    (ho : guild.owner_id = r)
    (h : s.nicknames.find? (nickFilter g (pyStrip t)) = some nobj) :
    remove_nickname s g t r
      = ((true, RemoveMsg.removed (pyStrip t)),
         { s with nicknames := deactivateId s.nicknames nobj.id }) := by
  simp [remove_nickname, hG, ho, h]

theorem botWorking_leave_found (ledger : List (Nat × String)) (m : Member) (o : String)
    (h : dget ledger m.id = some o) :
    BotWorking.handle_voice_leave ledger m true
      = { ledger := ddel ledger m.id,
          member := { m with nick := if o ≠ m.username then some o else none },
          calls := [if o ≠ m.username then some o else none], genCalls := 0 } := by
  have hdm : dmem ledger m.id = true := by simp [dmem, h]
  simp [BotWorking.handle_voice_leave, hdm, h]

theorem botWorking_leave_not_found (ledger : List (Nat × String)) (m : Member)
    (editOk : Bool) (h : dget ledger m.id = none) :
    BotWorking.handle_voice_leave ledger m editOk
      = { ledger := ledger, member := m, calls := [], genCalls := 0 } := by
  have hdm : dmem ledger m.id = false := by simp [dmem, h]
  simp [BotWorking.handle_voice_leave, hdm]

/-! ### Claims -/

/-- Claim C1: the spec says a store-backed identity is
`"<template> <zero-padded 3-digit counter>"`. The code path through
`get_random_nickname` returns the bare template: on a store whose only
active entry for guild 1 is `Subject`, `generate_nickname` yields exactly
`"Subject"`, which does not match the claimed pattern. The repository's own
docstrings and command help (`models.py` `Nickname`, `bot.py`
`generate_nickname`, the `Nickname 001` command descriptions and
`setup_default_nicknames.py`) all state the counter format, so this is a
code bug rather than a spec error. -/
theorem C1_store_path_returns_bare_template :
    get_random_nickname S0 1 0 = some "Subject"
    ∧ generate_nickname (some (StoreResult.ok (get_random_nickname S0 1 0))) 0 42
        = Except.ok "Subject"
    ∧ matchesCounterFormat "Subject" = false := by
  refine ⟨by decide, rfl, by decide⟩

/-- Claim C2: the spec says the generator never fails and falls back to the
built-in static list when the store returns nothing or is unreachable. The
code reads `BOT_CONFIG['nickname_formats']`, a key `config.py` does not
define (the static list lives in the separate `NICKNAME_FORMATS` constant),
so every fallback path raises `KeyError` instead of producing a string. -/
theorem C2_fallback_raises_keyerror :
    dictGet BOT_CONFIG "nickname_formats" = none
    ∧ generate_nickname none 0 42 = Except.error "KeyError: nickname_formats"
    ∧ generate_nickname (some StoreResult.unreachable) 0 42
        = Except.error "KeyError: nickname_formats"
    ∧ generate_nickname (some (StoreResult.ok none)) 0 42
        = Except.error "KeyError: nickname_formats" := by
  refine ⟨by decide, rfl, rfl, rfl⟩

/-- Claim C4: the spec says a second `onJoin` while a record exists is a no-op.
In `bot_working.py` (the variant `main.py` launches) the handler has no
re-entrancy guard: with user 1 already tracked under original `Alice` and
currently displayed as `Subject 042`, a duplicate join overwrites the stored
original with `Subject 042`, consults the generator again and issues a
second edit — while the `bot.py` variant (lines 163-165) performs the
specified no-op on the same input. -/
theorem C4_duplicate_join_recaptures :
    BotWorking.handle_voice_join [(1, "Alice")]
        { id := 1, username := "alice", nick := some "Subject 042" }
        (Except.ok "Operator 007") true
      = { ledger := [(1, "Subject 042")],
          member := { id := 1, username := "alice", nick := some "Operator 007" },
          calls := [some "Operator 007"], genCalls := 1 }
    ∧ BotPy.handle_voice_join [(1, "Alice")]
        { id := 1, username := "alice", nick := some "Subject 042" }
        (Except.ok "Operator 007") true
      = { ledger := [(1, "Alice")],
          member := { id := 1, username := "alice", nick := some "Subject 042" },
          calls := [], genCalls := 0 } := by
  refine ⟨by decide, by decide⟩

/-- Claim C5 counterexample: with user 1 tracked under original `Alice`, a leave
whose restore the connector refuses leaves the record in place in
`bot_working.py` — the `del` follows the `edit` call, so the raised
`Forbidden` skips it. The claim that the record is removed regardless of the
connector outcome is therefore false on the launched variant. -/
theorem C5_refused_restore_keeps_record :
    ¬ dget (BotWorking.handle_voice_leave [(1, "Alice")]
        { id := 1, username := "alice", nick := some "Subject 042" } false).ledger 1
      = none := by
  decide

/-- Claim C5 amended: on join the record is always created regardless of the
connector outcome (both variants store first); on leave `bot.py` pops the
record before the edit, completing the removal whatever the connector
answers, while `bot_working.py` removes the record only when the connector
accepts the restore and keeps it when the call is refused. No completed
ledger mutation is ever rolled back by a side-effect failure. -/
theorem C5_ledger_vs_connector_outcome (ledger : List (Nat × String)) (m : Member)
    (gen : Except String String) (editOk : Bool) :
    (BotWorking.handle_voice_join ledger m gen editOk).ledger
        = dset ledger m.id m.display_name
    ∧ dget (BotWorking.handle_voice_join ledger m gen editOk).ledger m.id
        = some m.display_name
    ∧ (BotPy.handle_voice_leave ledger m editOk).ledger = ddel ledger m.id
    ∧ (BotWorking.handle_voice_leave ledger m true).ledger = ddel ledger m.id
    ∧ (BotWorking.handle_voice_leave ledger m false).ledger = ledger := by
  refine ⟨botWorking_join_ledger ledger m gen editOk, ?_,
    botPy_leave_ledger ledger m editOk,
    botWorking_leave_ledger_ok ledger m,
    botWorking_leave_ledger_refused ledger m⟩
  rw [botWorking_join_ledger ledger m gen editOk]
  exact dget_dset_self ledger m.id m.display_name

/-- Claim C3: a join immediately followed by a leave, with the connector accepting
both requests, ends with the connector showing the member under the display
identity they had at join time, and with no ledger record left for them —
whatever the generator produced in between. -/
theorem C3_round_trip (ledger : List (Nat × String)) (m : Member)
    (gen : Except String String)
    (hnd : (ledger.map Prod.fst).Nodup) :
    (BotWorking.handle_voice_leave
        (BotWorking.handle_voice_join ledger m gen true).ledger
        (BotWorking.handle_voice_join ledger m gen true).member true).member.display_name
      = m.display_name
    ∧ dget (BotWorking.handle_voice_leave
        (BotWorking.handle_voice_join ledger m gen true).ledger
        (BotWorking.handle_voice_join ledger m gen true).member true).ledger m.id
      = none := by
  have hjl := botWorking_join_ledger ledger m gen true
  have hid := botWorking_join_member_id ledger m gen true
  have hun := botWorking_join_member_username ledger m gen true
  have hget : dget (BotWorking.handle_voice_join ledger m gen true).ledger
      (BotWorking.handle_voice_join ledger m gen true).member.id
      = some m.display_name := by
    rw [hid, hjl]
    exact dget_dset_self ledger m.id m.display_name
  rw [botWorking_leave_found _ _ _ hget]
  constructor
  · by_cases hcase : m.display_name = m.username
    · have hc : m.nick.getD m.username = m.username := hcase
      simp [Member.display_name, hun, hc]
    · have hc : ¬ m.nick.getD m.username = m.username := hcase
      simp [Member.display_name, hun, hc]
  · rw [hid, hjl]
    exact dget_ddel_self (dset ledger m.id m.display_name) m.id
      (nodup_keys_dset ledger m.id m.display_name hnd)

/-- Witness for C3 on an empty ledger and a member displaying `Alice`. -/
theorem C3_round_trip_witness :
    (BotWorking.handle_voice_leave
        (BotWorking.handle_voice_join []
          { id := 1, username := "alice", nick := some "Alice" }
          (Except.ok "Subject 042") true).ledger
        (BotWorking.handle_voice_join []
          { id := 1, username := "alice", nick := some "Alice" }
          (Except.ok "Subject 042") true).member true).member.display_name
      = "Alice"
    ∧ dget (BotWorking.handle_voice_leave
        (BotWorking.handle_voice_join []
          { id := 1, username := "alice", nick := some "Alice" }
          (Except.ok "Subject 042") true).ledger
        (BotWorking.handle_voice_join []
          { id := 1, username := "alice", nick := some "Alice" }
          (Except.ok "Subject 042") true).member true).ledger 1
      = none := by
  have h := C3_round_trip [] { id := 1, username := "alice", nick := some "Alice" }
    (Except.ok "Subject 042") (by decide)
  simpa using h

/-- Claim C6: a leave for a tracked user pops the record and asks the connector to
set the identity back to the stored original — unless that original is
bit-for-bit the account username, in which case the request clears the
override (`nick=None`); a leave for an untracked user does nothing. -/
theorem C6_leave_restores_or_clears (ledger : List (Nat × String)) (m : Member)
    (o : String) (hnd : (ledger.map Prod.fst).Nodup) :
    (dget ledger m.id = some o →
       (BotWorking.handle_voice_leave ledger m true).ledger = ddel ledger m.id
       ∧ dget (BotWorking.handle_voice_leave ledger m true).ledger m.id = none
       ∧ (BotWorking.handle_voice_leave ledger m true).calls
           = [if o ≠ m.username then some o else none]
       ∧ (BotWorking.handle_voice_leave ledger m true).member
           = { m with nick := if o ≠ m.username then some o else none })
    ∧ (dget ledger m.id = none →
       BotWorking.handle_voice_leave ledger m true
         = { ledger := ledger, member := m, calls := [], genCalls := 0 }) := by
  constructor
  · intro h
    rw [botWorking_leave_found ledger m o h]
    exact ⟨rfl, dget_ddel_self ledger m.id hnd, rfl, rfl⟩
  · intro h
    exact botWorking_leave_not_found ledger m true h

/-- Witness for C6: tracked original `Alice` differs from username `alice`,
so the request carries the literal original and the record is gone. -/
theorem C6_leave_restores_or_clears_witness :
    (BotWorking.handle_voice_leave [(1, "Alice")]
        { id := 1, username := "alice", nick := some "Subject 042" } true).calls
      = [some "Alice"]
    ∧ dget (BotWorking.handle_voice_leave [(1, "Alice")]
        { id := 1, username := "alice", nick := some "Subject 042" } true).ledger 1
      = none := by
  have h := (C6_leave_restores_or_clears [(1, "Alice")]
      { id := 1, username := "alice", nick := some "Subject 042" } "Alice"
      (by decide)).1 (by decide)
  refine ⟨?_, h.2.1⟩
  rw [h.2.2.1]
  decide

/-- Claim C7 counterexample: the store matches with SQL `ILIKE`, which treats the
text as a pattern. With only `Subject` active for guild 1, no active entry
equals `S%` case-insensitively, yet `add_nickname` reports Duplicate instead
of inserting — refuting the claim that a non-duplicate is always inserted. -/
theorem C7_wildcard_blocks_insert :
    (S0.nicknames.all fun n =>
        !(n.guild_id == 1 && n.is_active && ciEq n.nickname "S%")) = true
    ∧ add_nickname S0 1 "S%" 5 = (none, S0) := by
  refine ⟨by decide, by decide⟩

/-- Claim C7 amended: `addEntry` trims, rejects empty-after-trim as Invalid, and
reports Duplicate without mutation when an active entry of the group matches
the trimmed text as a case-insensitive `LIKE` pattern (which for
wildcard-free text is exactly case-insensitive equality); otherwise it
inserts exactly one new active entry carrying the trimmed text. Adding
`Subject` then `subject` always reports Duplicate on the second call. -/
theorem C7_addEntry_semantics (s : Store) (g : Nat) (t : String) (c : Nat) :
    (pyStrip t = "" → add_nickname s g t c = (none, s))
    ∧ ((∃ n ∈ s.nicknames,
          n.guild_id = g ∧ n.is_active = true ∧ ilike n.nickname (pyStrip t) = true) →
        add_nickname s g t c = (none, s))
    ∧ (pyStrip t ≠ "" →
        (∀ n ∈ s.nicknames,
          ¬(n.guild_id = g ∧ n.is_active = true ∧ ilike n.nickname (pyStrip t) = true)) →
        add_nickname s g t c =
          (some ⟨s.nextId, g, pyStrip t, true, c⟩,
           ⟨s.guilds, s.nicknames ++ [⟨s.nextId, g, pyStrip t, true, c⟩],
            s.nextId + 1⟩))
    ∧ (add_nickname (add_nickname s g "Subject" c).2 g "subject" c).1 = none := by
  refine ⟨add_nickname_invalid s g t c, ?_, ?_, ?_⟩
  · rintro ⟨n, hn, hprop⟩
    exact add_nickname_duplicate s g t c
      ⟨n, hn, (nickFilter_eq_true_iff g (pyStrip t) n).mpr hprop⟩
  · intro h1 h2
    refine add_nickname_inserts s g t c h1 (List.find?_eq_none.mpr ?_)
    intro n hn hfil
    exact h2 n hn ((nickFilter_eq_true_iff g (pyStrip t) n).mp hfil)
  · have hstrip1 : pyStrip "Subject" = "Subject" := by decide
    have hlow : lowerStr "subject" = lowerStr "Subject" := by decide
    cases hfind : s.nicknames.find? (nickFilter g (pyStrip "Subject")) with
    | some n =>
        have hsame : (add_nickname s g "Subject" c).2 = s := by
          have := add_nickname_duplicate s g "Subject" c
            ⟨n, List.mem_of_find?_eq_some hfind, List.find?_some hfind⟩
          rw [this]
        rw [hsame]
        have hfil := List.find?_some hfind
        rw [nickFilter_eq_true_iff] at hfil
        have hfil2 : nickFilter g (pyStrip "subject") n = true := by
          rw [nickFilter_eq_true_iff]
          refine ⟨hfil.1, hfil.2.1, ?_⟩
          rw [show pyStrip "subject" = "subject" by decide,
            ilike_congr_pattern n.nickname "subject" "Subject" hlow]
          rw [hstrip1] at hfil
          exact hfil.2.2
        have := add_nickname_duplicate s g "subject" c
          ⟨n, List.mem_of_find?_eq_some hfind, hfil2⟩
        rw [this]
    | none =>
        have hins := add_nickname_inserts s g "Subject" c (by decide) hfind
        have hsame : (add_nickname s g "Subject" c).2
            = ⟨s.guilds, s.nicknames ++ [⟨s.nextId, g, pyStrip "Subject", true, c⟩],
               s.nextId + 1⟩ := by rw [hins]
        rw [hsame]
        have hfil2 : nickFilter g (pyStrip "subject")
            ⟨s.nextId, g, pyStrip "Subject", true, c⟩ = true := by
          rw [nickFilter_eq_true_iff]
          refine ⟨rfl, rfl, ?_⟩
          show ilike (pyStrip "Subject") (pyStrip "subject") = true
          decide
        have := add_nickname_duplicate
          ⟨s.guilds, s.nicknames ++ [⟨s.nextId, g, pyStrip "Subject", true, c⟩],
           s.nextId + 1⟩ g "subject" c
          ⟨⟨s.nextId, g, pyStrip "Subject", true, c⟩, by simp, hfil2⟩
        rw [this]

/-- Witness for C7 on the concrete store: ` subject ` trims to `subject`,
which matches the active `Subject` case-insensitively, so the call reports
Duplicate without mutating the store. -/
theorem C7_addEntry_semantics_witness :
    add_nickname S0 1 " subject " 5 = (none, S0) :=
  (C7_addEntry_semantics S0 1 " subject " 5).2.1
    ⟨⟨1, 1, "Subject", true, 10⟩, by decide, by decide, by decide, by decide⟩

/-- Claim C8 counterexample: with owner 10 and only `Subject` active, no active
entry equals `S%` case-insensitively, yet `remove_nickname` succeeds and
soft-deletes `Subject` — refuting the claim that such a call fails with
NotFound. -/
theorem C8_wildcard_removes_without_ci_match :
    (S0.nicknames.all fun n =>
        !(n.guild_id == 1 && n.is_active && ciEq n.nickname "S%")) = true
    ∧ remove_nickname S0 1 "S%" 10
        = ((true, RemoveMsg.removed "S%"),
           ⟨S0.guilds, [⟨1, 1, "Subject", false, 10⟩], 2⟩) := by
  refine ⟨by decide, by decide⟩

/-- Claim C8 amended: for a registered group, `removeEntry` fails with NotOwner
and mutates nothing unless the requester is the group's current owner; with
the owner, it fails with NotFound and mutates nothing when no active entry
matches the trimmed text as a case-insensitive `LIKE` pattern (for
wildcard-free text, case-insensitive equality); otherwise it flips exactly
the first matching entry's active flag to false, keeping every row. -/
theorem C8_removeEntry_semantics (s : Store) (g : Nat) (t : String) (r : Nat)
    (guild : DGuild)
    (hG : s.guilds.find? (fun gd => gd.id == g) = some guild) :
    (guild.owner_id ≠ r →
       remove_nickname s g t r = ((false, RemoveMsg.notOwner), s))
    ∧ (guild.owner_id = r →
       (∀ n ∈ s.nicknames,
          ¬(n.guild_id = g ∧ n.is_active = true ∧ ilike n.nickname (pyStrip t) = true)) →
       remove_nickname s g t r = ((false, RemoveMsg.notFound (pyStrip t)), s))
    ∧ (∀ nobj, guild.owner_id = r →
       s.nicknames.find? (nickFilter g (pyStrip t)) = some nobj →
       remove_nickname s g t r
         = ((true, RemoveMsg.removed (pyStrip t)),
            { s with nicknames := deactivateId s.nicknames nobj.id })
       ∧ ((remove_nickname s g t r).2.nicknames.length = s.nicknames.length)) := by
  refine ⟨remove_nickname_not_owner s g t r guild hG, ?_, ?_⟩
  · intro ho h
    refine remove_nickname_not_found s g t r guild hG ho (List.find?_eq_none.mpr ?_)
    intro n hn hfil
    exact h n hn ((nickFilter_eq_true_iff g (pyStrip t) n).mp hfil)
  · intro nobj ho hf
    have hflip := remove_nickname_flips s g t r guild nobj hG ho hf
    refine ⟨hflip, ?_⟩
    rw [hflip]
    simp [deactivateId]

/-- Witness for C8: non-owner 5 is refused on the concrete store. -/
theorem C8_removeEntry_semantics_witness :
    remove_nickname S0 1 "Subject" 5 = ((false, RemoveMsg.notOwner), S0) :=
  (C8_removeEntry_semantics S0 1 "Subject" 5 ⟨1, "G", 10⟩ (by decide)).1 (by decide)

/-- Claim C9: the trimmed user text reaches `ILIKE` as a pattern. When the text
carries `%` or `_` wildcards: `addEntry` reports Duplicate as soon as some
active template of the group matches it as a pattern, even with no active
entry equal to it case-insensitively; and `removeEntry` by the owner
soft-deletes the first active entry matching it as a pattern. -/
theorem C9_ilike_is_pattern_matching (s : Store) (g : Nat) (t : String)
    (c r : Nat) (guild : DGuild) (nobj : DNickname)
    (_hwild : t.data.contains '%' = true ∨ t.data.contains '_' = true) :
    ((∀ n ∈ s.nicknames,
        ¬(n.guild_id = g ∧ n.is_active = true ∧ ciEq n.nickname (pyStrip t) = true)) →
     (∃ n ∈ s.nicknames,
        n.guild_id = g ∧ n.is_active = true ∧ ilike n.nickname (pyStrip t) = true) →
       add_nickname s g t c = (none, s))
    ∧ (s.guilds.find? (fun gd => gd.id == g) = some guild →
       guild.owner_id = r →
       s.nicknames.find? (nickFilter g (pyStrip t)) = some nobj →
       remove_nickname s g t r
         = ((true, RemoveMsg.removed (pyStrip t)),
            { s with nicknames := deactivateId s.nicknames nobj.id })) := by
  constructor
  · rintro _ ⟨n, hn, hprop⟩
    exact add_nickname_duplicate s g t c
      ⟨n, hn, (nickFilter_eq_true_iff g (pyStrip t) n).mpr hprop⟩
  · intro hG ho hf
    exact remove_nickname_flips s g t r guild nobj hG ho hf

/-- Witness for C9 on the concrete store with pattern `S%`: no
case-insensitive equal entry exists, yet add reports Duplicate and the
owner's remove soft-deletes `Subject`. -/
theorem C9_ilike_is_pattern_matching_witness :
    add_nickname S0 1 "S%" 5 = (none, S0)
    ∧ remove_nickname S0 1 "S%" 10
        = ((true, RemoveMsg.removed "S%"),
           { S0 with nicknames := deactivateId S0.nicknames 1 }) := by
  have h := C9_ilike_is_pattern_matching S0 1 "S%" 5 10 ⟨1, "G", 10⟩
    ⟨1, 1, "Subject", true, 10⟩ (Or.inl (by decide))
  exact ⟨h.1 (by decide) ⟨⟨1, 1, "Subject", true, 10⟩, by decide, by decide, by decide,
      by decide⟩,
    h.2 (by decide) (by decide) (by decide)⟩

/-- Claim C10: in the variant launched by `main.py`, the `/restore` command
rejects any requester who is not the guild owner before touching the ledger:
the response is the owner-only error, no connector request is issued and the
ledger is returned unchanged. -/
theorem C10_restore_owner_gate (ledger : List (Nat × String))
    (requester_id owner_id : Nat) (target : Member) (editOk : Bool)
    (h : requester_id ≠ owner_id) :
    BotWorking.restore_command ledger requester_id owner_id target editOk
      = (BotWorking.RestoreResponse.ownerOnly, ledger, []) := by
  simp [BotWorking.restore_command, h]

/-- Witness for C10 at a concrete non-owner requester. -/
theorem C10_restore_owner_gate_witness :
    BotWorking.restore_command [(1, "Alice")] 5 10
        { id := 1, username := "alice", nick := some "Subject 042" } true
      = (BotWorking.RestoreResponse.ownerOnly, [(1, "Alice")], []) :=
  C10_restore_owner_gate [(1, "Alice")] 5 10
    { id := 1, username := "alice", nick := some "Subject 042" } true (by decide)

end VNBot
